import Mathlib

/-!
Verification of the two example scripts in this repository:
`ai-workflows/examples/simple_agent.py` (one-shot agent call) and
`ai-workflows/examples/durable_workflow.py` (two-step durable workflow).

The external agent library is modelled by an oracle
`AgentOracle ε : AgentCall → Except ε AgentRunResult` supplying the mocked
external responses (or failures).  The sequential `await`s of the Python
code are embedded as explicit state passing over the list of agent calls
performed so far, so that the number, content and order of external calls
is part of each function's observable behaviour.
-/

/-- The token-usage record carried by a pydantic-ai run result
(`result.usage`): a request-token count and a response-token count. -/
structure Usage where
  request_tokens : Nat
  response_tokens : Nat
  deriving DecidableEq

/-- One external agent invocation: the model identifier and system prompt the
`Agent` was constructed with, and the user prompt passed to `agent.run`. -/
structure AgentCall where
  model : String
  system_prompt : String
  prompt : String
  deriving DecidableEq

/-- The result of an external `agent.run` call: a text payload (`result.data`)
and the usage record. -/
structure AgentRunResult where
  data : String
  usage : Usage
  deriving DecidableEq

/-- The mocked external world: what each possible agent call would return,
or the error it would fail with. -/
def AgentOracle (ε : Type) : Type := AgentCall → Except ε AgentRunResult

/-- An oracle built from total mocked responses (no external failure). -/
def oracleOf {ε : Type} (f : AgentCall → AgentRunResult) : AgentOracle ε :=
  fun c => .ok (f c)

/-- A computation that may perform agent calls: explicit state passing over
the list of calls performed so far, failing with the first external error. -/
def AgentM (ε α : Type) : Type := List AgentCall → Except ε (α × List AgentCall)

/-- `pydantic_ai.Agent`: a model identifier bound to a system prompt. -/
structure Agent where
  model : String
  system_prompt : String
  deriving DecidableEq

/-- `agent.run(prompt)`: performs one external call (appended to the trace),
returning the oracle's result, or propagating the oracle's error. -/
def Agent.run {ε : Type} (g : AgentOracle ε) : Agent → String → AgentM ε AgentRunResult
  | ⟨model, system_prompt⟩, prompt => fun log =>
    match g ⟨model, system_prompt, prompt⟩ with
    | .error e => .error e
    | .ok r => .ok (r, log ++ [⟨model, system_prompt, prompt⟩])

/-- A Python value as returned by these scripts: a string, a non-negative
integer token count, a dict with string keys, or an instance of the
`ResearchResult` dataclass. -/
inductive Value where
  | str : String → Value
  | nat : Nat → Value
  | dict : List (String × Value) → Value
  | research_result : String → String → String → Value

/-- Whether a value is an instance of the `ResearchResult` dataclass
(as opposed to, e.g., a plain dict). -/
def Value.isResearchResult : Value → Bool
  | .research_result _ _ _ => true
  | _ => false

namespace simple_agent

/-- `simple_agent.py` executes no module-level statement besides an import
and the definition of `main`: no initialization action, no environment read. -/
def moduleInit (_env : String → Option String) : List (Option String) := []

/-- `simple_agent.main(query, model="anthropic:claude-sonnet-4-20250514")`:
construct an agent from `model` and the fixed system prompt, run it once on
`query`, and return the dict
`{"response": result.data, "usage": {"input_tokens": result.usage.request_tokens, "output_tokens": result.usage.response_tokens}}`. -/
def main {ε : Type} (g : AgentOracle ε) (query : String)
    (model : String := "anthropic:claude-sonnet-4-20250514") : AgentM ε Value :=
  fun log =>
    match Agent.run g ⟨model, "You are a helpful assistant."⟩ query log with
    | .error e => .error e
    | .ok (result, log') =>
      .ok (Value.dict
        [("response", .str result.data),
         ("usage", .dict
           [("input_tokens", .nat result.usage.request_tokens),
            ("output_tokens", .nat result.usage.response_tokens)])], log')

end simple_agent

namespace durable_workflow

/-- `durable_workflow.py` at module import time executes
`dbos.launch(database_url=os.environ.get("DATABASE_URL"))`: the list of
`database_url` arguments passed to the external `dbos.launch`. -/
def moduleInit (env : String → Option String) : List (Option String) :=
  [env "DATABASE_URL"]

/-- The `ResearchResult` dataclass of `durable_workflow.py`. -/
structure ResearchResult where
  query : String
  research : String
  summary : String
  deriving DecidableEq

/-- Step 1, `do_research(query)`: run an agent with the fixed model and the
"Research the topic thoroughly." system prompt on `query`, return `result.data`. -/
def do_research {ε : Type} (g : AgentOracle ε) (query : String) : AgentM ε String :=
  fun log =>
    match Agent.run g ⟨"anthropic:claude-sonnet-4-20250514", "Research the topic thoroughly."⟩ query log with
    | .error e => .error e
    | .ok (result, log') => .ok (result.data, log')

/-- Step 2, `summarize(research)`: run an agent with the fixed model and the
"Summarize in 2-3 sentences." system prompt on `f"Summarize: {research}"`,
return `result.data`. -/
def summarize {ε : Type} (g : AgentOracle ε) (research : String) : AgentM ε String :=
  fun log =>
    match Agent.run g ⟨"anthropic:claude-sonnet-4-20250514", "Summarize in 2-3 sentences."⟩ ("Summarize: " ++ research) log with
    | .error e => .error e
    | .ok (result, log') => .ok (result.data, log')

/-- `durable_workflow.main(query)`: await `do_research(query)`, then await
`summarize(research)`, then return the dict
`{"query": query, "research": research, "summary": summary}`. -/
def main {ε : Type} (g : AgentOracle ε) (query : String) : AgentM ε Value :=
  fun log =>
    match do_research g query log with
    | .error e => .error e
    | .ok (research, log₁) =>
      match summarize g research log₁ with
      | .error e => .error e
      | .ok (summary, log₂) =>
        .ok (Value.dict
          [("query", .str query), ("research", .str research), ("summary", .str summary)], log₂)

end durable_workflow

/-- The agent call made by `simple_agent.main` for a given model and query. -/
def helpfulCall (model query : String) : AgentCall :=
  ⟨model, "You are a helpful assistant.", query⟩

/-- The agent call made by `durable_workflow.do_research` for a given query. -/
def researchCall (query : String) : AgentCall :=
  ⟨"anthropic:claude-sonnet-4-20250514", "Research the topic thoroughly.", query⟩

/-- The agent call made by `durable_workflow.summarize` for a given research text. -/
def summarizeCall (research : String) : AgentCall :=
  ⟨"anthropic:claude-sonnet-4-20250514", "Summarize in 2-3 sentences.", "Summarize: " ++ research⟩

/-- C2: For the one-shot example, for every query and every mocked agent
response, with the model parameter left at its default: omitting the model
parameter is the same as passing "anthropic:claude-sonnet-4-20250514", and the
returned dict's "response" field equals the text returned by the external run
while "usage.input_tokens" / "usage.output_tokens" equal the run's reported
request-token and response-token counts. -/
theorem C2_simple_pass_through (f : AgentCall → AgentRunResult) (q : String) :
    simple_agent.main (oracleOf (ε := Unit) f) q
      = simple_agent.main (oracleOf f) q "anthropic:claude-sonnet-4-20250514"
    ∧ simple_agent.main (oracleOf (ε := Unit) f) q "anthropic:claude-sonnet-4-20250514" [] =
      .ok (Value.dict
        [("response", .str (f (helpfulCall "anthropic:claude-sonnet-4-20250514" q)).data),
         ("usage", .dict
           [("input_tokens", .nat (f (helpfulCall "anthropic:claude-sonnet-4-20250514" q)).usage.request_tokens),
            ("output_tokens", .nat (f (helpfulCall "anthropic:claude-sonnet-4-20250514" q)).usage.response_tokens)])],
        [helpfulCall "anthropic:claude-sonnet-4-20250514" q]) :=
  ⟨rfl, rfl⟩

/-- C1: For the durable example, for every query and every total mocked
oracle: the final dict's "research" field is exactly the string returned by
`do_research`, its "summary" field is exactly what `summarize` returns when
given exactly that research string as its argument, and its "query" field is
the original input query. -/
theorem C1_durable_pass_through (f : AgentCall → AgentRunResult) (q : String) :
    ∃ (r s : String) (tr₁ tr₂ tr₃ : List AgentCall),
      durable_workflow.do_research (oracleOf (ε := Unit) f) q [] = .ok (r, tr₁)
      ∧ durable_workflow.summarize (oracleOf (ε := Unit) f) r [] = .ok (s, tr₂)
      ∧ durable_workflow.main (oracleOf (ε := Unit) f) q [] =
        .ok (Value.dict
          [("query", .str q), ("research", .str r), ("summary", .str s)], tr₃) :=
  ⟨(f (researchCall q)).data, (f (summarizeCall (f (researchCall q)).data)).data,
   [researchCall q], [summarizeCall (f (researchCall q)).data],
   [researchCall q, summarizeCall (f (researchCall q)).data],
   rfl, rfl, rfl⟩

/-- C3 counterexample: at the concrete oracle answering every call with the
text "out" and query "q", `durable_workflow.main` returns a plain dict value,
not an instance of the `ResearchResult` dataclass. -/
theorem C3_counterexample :
    durable_workflow.main (oracleOf (ε := Unit) (fun _ => ⟨"out", ⟨0, 0⟩⟩)) "q" [] =
      .ok (Value.dict
        [("query", .str "q"), ("research", .str "out"), ("summary", .str "out")],
        [researchCall "q", summarizeCall "out"])
    ∧ Value.isResearchResult
        (Value.dict
          [("query", .str "q"), ("research", .str "out"), ("summary", .str "out")]) = false :=
  ⟨rfl, rfl⟩

/-- C3 (amended): after both steps complete, the value returned is a dict
(not a `ResearchResult` instance) whose three string fields equal the fields
of the corresponding `ResearchResult` record: the original query, the text
returned by `do_research`, and the text returned by `summarize` on that
research text. -/
theorem C3_amended_dict_matches_record (f : AgentCall → AgentRunResult) (q : String) :
    ∃ (rr : durable_workflow.ResearchResult) (tr tr₁ tr₂ : List AgentCall),
      rr.query = q
      ∧ durable_workflow.do_research (oracleOf (ε := Unit) f) q [] = .ok (rr.research, tr₁)
      ∧ durable_workflow.summarize (oracleOf (ε := Unit) f) rr.research [] = .ok (rr.summary, tr₂)
      ∧ durable_workflow.main (oracleOf (ε := Unit) f) q [] =
        .ok (Value.dict
          [("query", .str rr.query), ("research", .str rr.research),
           ("summary", .str rr.summary)], tr) :=
  ⟨⟨q, (f (researchCall q)).data, (f (summarizeCall (f (researchCall q)).data)).data⟩,
   [researchCall q, summarizeCall (f (researchCall q)).data],
   [researchCall q], [summarizeCall (f (researchCall q)).data],
   rfl, rfl, rfl, rfl⟩

/-- C5: In the durable example's summarize step, for every research string
`r` the external agent is invoked not with `r` itself but with
`"Summarize: " ++ r`, and the step returns the text the oracle produces for
that prefixed prompt. -/
theorem C5_summarize_prompt (f : AgentCall → AgentRunResult) (r : String) :
    durable_workflow.summarize (oracleOf (ε := Unit) f) r [] =
      .ok ((f ⟨"anthropic:claude-sonnet-4-20250514", "Summarize in 2-3 sentences.",
              "Summarize: " ++ r⟩).data,
           [⟨"anthropic:claude-sonnet-4-20250514", "Summarize in 2-3 sentences.",
             "Summarize: " ++ r⟩]) :=
  rfl

/-- C7: For every query (and model, for the one-shot example) and every total
mocked oracle, the one-shot example performs exactly one external agent call,
and the durable example performs exactly two, in order: the research call
first, then the summarize call, whose prompt is built from the research
call's response — so summarize cannot run before research completes. -/
theorem C7_call_traces (f : AgentCall → AgentRunResult) (q m : String) :
    (∃ out, simple_agent.main (oracleOf (ε := Unit) f) q m [] =
      .ok (out, [helpfulCall m q]))
    ∧ (∃ out, durable_workflow.main (oracleOf (ε := Unit) f) q [] =
      .ok (out, [researchCall q, summarizeCall (f (researchCall q)).data])) :=
  ⟨⟨_, rfl⟩, ⟨_, rfl⟩⟩

/-- Unfolding `Agent.run` at a literal agent: the one external call it makes. -/
theorem Agent.run_mk_eq {ε : Type} (g : AgentOracle ε) (mo sp p : String)
    (log : List AgentCall) :
    Agent.run g ⟨mo, sp⟩ p log =
      match g ⟨mo, sp, p⟩ with
      | .error e => .error e
      | .ok r => .ok (r, log ++ [⟨mo, sp, p⟩]) :=
  rfl

/-- Characterization of `simple_agent.main`: one external call on
`helpfulCall model query`, whose error (if any) is returned unmodified. -/
theorem simple_main_eq {ε : Type} (g : AgentOracle ε) (q m : String) (log : List AgentCall) :
    simple_agent.main g q m log =
      match g (helpfulCall m q) with
      | .error e => .error e
      | .ok result =>
        .ok (Value.dict
          [("response", .str result.data),
           ("usage", .dict
             [("input_tokens", .nat result.usage.request_tokens),
              ("output_tokens", .nat result.usage.response_tokens)])],
          log ++ [helpfulCall m q]) := by
  unfold simple_agent.main helpfulCall
  rw [Agent.run_mk_eq]
  cases g ⟨m, "You are a helpful assistant.", q⟩ <;> rfl

/-- Characterization of `durable_workflow.main`: the research call, then the
summarize call on the research call's response, any error returned unmodified. -/
theorem durable_main_eq {ε : Type} (g : AgentOracle ε) (q : String) (log : List AgentCall) :
    durable_workflow.main g q log =
      match g (researchCall q) with
      | .error e => .error e
      | .ok result =>
        match g (summarizeCall result.data) with
        | .error e => .error e
        | .ok result₂ =>
          .ok (Value.dict
            [("query", .str q), ("research", .str result.data),
             ("summary", .str result₂.data)],
            log ++ [researchCall q] ++ [summarizeCall result.data]) := by
  unfold durable_workflow.main durable_workflow.do_research durable_workflow.summarize
    researchCall summarizeCall
  simp only [Agent.run_mk_eq]
  cases g ⟨"anthropic:claude-sonnet-4-20250514", "Research the topic thoroughly.", q⟩ with
  | error e => rfl
  | ok result =>
    dsimp only
    cases g ⟨"anthropic:claude-sonnet-4-20250514", "Summarize in 2-3 sentences.",
             "Summarize: " ++ result.data⟩ <;> rfl

/-- C6: External failures propagate unmodified: if the one external call of the
one-shot example fails with `e`, its entry point fails with exactly `e`; if the
durable example's research call fails with `e`, its entry point fails with
exactly `e`; and if the research call succeeds but the summarize call fails
with `e2`, the durable entry point fails with exactly `e2`. -/
theorem C6_errors_propagate {ε : Type} (g : AgentOracle ε) (q m : String)
    (r : AgentRunResult) (e e₂ : ε) :
    (g (helpfulCall m q) = .error e → simple_agent.main g q m [] = .error e)
    ∧ (g (researchCall q) = .error e → durable_workflow.main g q [] = .error e)
    ∧ (g (researchCall q) = .ok r → g (summarizeCall r.data) = .error e₂ →
       durable_workflow.main g q [] = .error e₂) := by
  refine ⟨fun h => ?_, fun h => ?_, fun h₁ h₂ => ?_⟩
  · rw [simple_main_eq, h]
  · rw [durable_main_eq, h]
  · rw [durable_main_eq, h₁]
    dsimp only
    rw [h₂]

/-- An oracle failing every call with the error "boom". -/
def failAll : AgentOracle String := fun _ => .error "boom"

/-- An oracle answering the research call but failing the summarize call
with the error "boom2". -/
def failSummarize : AgentOracle String := fun c =>
  if c.system_prompt = "Summarize in 2-3 sentences." then .error "boom2"
  else .ok ⟨"r", ⟨0, 0⟩⟩

/-- Witness for C6 at concrete failing oracles. -/
theorem C6_errors_propagate_witness :
    simple_agent.main failAll "q" "m" [] = .error "boom"
    ∧ durable_workflow.main failAll "q" [] = .error "boom"
    ∧ durable_workflow.main failSummarize "q" [] = .error "boom2" :=
  ⟨(C6_errors_propagate failAll "q" "m" ⟨"r", ⟨0, 0⟩⟩ "boom" "boom2").1 rfl,
   (C6_errors_propagate failAll "q" "m" ⟨"r", ⟨0, 0⟩⟩ "boom" "boom2").2.1 rfl,
   (C6_errors_propagate failSummarize "q" "m" ⟨"r", ⟨0, 0⟩⟩ "boom" "boom2").2.2
     (by simp [failSummarize, researchCall]) (by simp [failSummarize, summarizeCall])⟩

/-- C9: Both entry points are deterministic functions of their arguments and
the external responses: two oracles that return the same results on the calls
an entry point makes yield identical returned values (and identical traces). -/
theorem C9_determinism {ε : Type} (g g₂ : AgentOracle ε) (q m : String) :
    (g (helpfulCall m q) = g₂ (helpfulCall m q) →
      simple_agent.main g q m = simple_agent.main g₂ q m)
    ∧ ((g (researchCall q) = g₂ (researchCall q)
        ∧ ∀ r : AgentRunResult, g (researchCall q) = .ok r →
            g (summarizeCall r.data) = g₂ (summarizeCall r.data)) →
      durable_workflow.main g q = durable_workflow.main g₂ q) := by
  constructor
  · intro h
    funext log
    rw [simple_main_eq, simple_main_eq, h]
  · rintro ⟨h₁, h₂⟩
    funext log
    rw [durable_main_eq, durable_main_eq, ← h₁]
    cases hr : g (researchCall q) with
    | error e => rfl
    | ok r =>
      dsimp only
      rw [← h₂ r hr]

/-- Witness for C9 at two (equal) concrete oracles. -/
theorem C9_determinism_witness :
    simple_agent.main failAll "q" "m" = simple_agent.main failAll "q" "m"
    ∧ durable_workflow.main failAll "q" = durable_workflow.main failAll "q" :=
  ⟨(C9_determinism failAll failAll "q" "m").1 rfl,
   (C9_determinism failAll failAll "q" "m").2 ⟨rfl, fun _ _ => rfl⟩⟩

/-- C8: Only the durable example reads the process environment: its module
initialization passes exactly `env "DATABASE_URL"` to the durability engine's
launch call (and depends on nothing else in the environment), while the
one-shot example's module initialization performs no action and is
independent of the environment. -/
theorem C8_env_reads (env env₂ : String → Option String) :
    durable_workflow.moduleInit env = [env "DATABASE_URL"]
    ∧ (env "DATABASE_URL" = env₂ "DATABASE_URL" →
        durable_workflow.moduleInit env = durable_workflow.moduleInit env₂)
    ∧ simple_agent.moduleInit env = []
    ∧ simple_agent.moduleInit env = simple_agent.moduleInit env₂ := by
  refine ⟨rfl, fun h => ?_, rfl, rfl⟩
  unfold durable_workflow.moduleInit
  rw [h]

/-- Witness for C8 at concrete environments. -/
theorem C8_env_reads_witness :
    durable_workflow.moduleInit (fun _ => some "postgres:db") = [some "postgres:db"]
    ∧ durable_workflow.moduleInit (fun _ => some "postgres:db")
        = durable_workflow.moduleInit (fun _ => some "postgres:db")
    ∧ simple_agent.moduleInit (fun _ => some "postgres:db") = []
    ∧ simple_agent.moduleInit (fun _ => some "postgres:db")
        = simple_agent.moduleInit (fun _ => some "postgres:db") :=
  ⟨(C8_env_reads (fun _ => some "postgres:db") (fun _ => some "postgres:db")).1,
   (C8_env_reads (fun _ => some "postgres:db") (fun _ => some "postgres:db")).2.1 rfl,
   (C8_env_reads (fun _ => some "postgres:db") (fun _ => some "postgres:db")).2.2.1,
   (C8_env_reads (fun _ => some "postgres:db") (fun _ => some "postgres:db")).2.2.2⟩

/-- C10: If DATABASE_URL is unset in the environment, the durable example's
module initialization still performs the launch call, passing a missing
(`none`) connection string rather than raising locally or skipping the call. -/
theorem C10_launch_with_none (env : String → Option String)
    (h : env "DATABASE_URL" = none) :
    durable_workflow.moduleInit env = [none] := by
  unfold durable_workflow.moduleInit
  rw [h]

/-- Witness for C10 at the empty environment. -/
theorem C10_launch_with_none_witness :
    durable_workflow.moduleInit (fun _ => none) = [none] :=
  C10_launch_with_none (fun _ => none) rfl

/-- The durable entry point as the specification's external-interfaces
section reads it: besides the query, it would accept "an optional
model-identifier string" passed to the agent constructor of each step.
Written from the spec's words for comparison with `durable_workflow.main`,
which in the source accepts only the query and hardcodes the model
identifier in both steps. -/
def durable_workflow.spec_main {ε : Type} (g : AgentOracle ε) (query : String)
    (model : String := "anthropic:claude-sonnet-4-20250514") : AgentM ε Value :=
  fun log =>
    match Agent.run g ⟨model, "Research the topic thoroughly."⟩ query log with
    | .error e => .error e
    | .ok (result, log₁) =>
      match Agent.run g ⟨model, "Summarize in 2-3 sentences."⟩
              ("Summarize: " ++ result.data) log₁ with
      | .error e => .error e
      | .ok (result₂, log₂) =>
        .ok (Value.dict
          [("query", .str query), ("research", .str result.data),
           ("summary", .str result₂.data)], log₂)

/-- C4 counterexample: at query "q" and model "m", the spec-worded durable
entry point (`durable_workflow.spec_main`) would pass "m" to both agent
constructors, but the source durable entry point takes no model input at all
and both of its calls carry the fixed identifier, which differs from "m". -/
theorem C4_counterexample :
    durable_workflow.spec_main (oracleOf (ε := Unit) (fun _ => ⟨"out", ⟨0, 0⟩⟩)) "q" "m" [] =
      .ok (Value.dict
        [("query", .str "q"), ("research", .str "out"), ("summary", .str "out")],
        [⟨"m", "Research the topic thoroughly.", "q"⟩,
         ⟨"m", "Summarize in 2-3 sentences.", "Summarize: out"⟩])
    ∧ durable_workflow.main (oracleOf (ε := Unit) (fun _ => ⟨"out", ⟨0, 0⟩⟩)) "q" [] =
      .ok (Value.dict
        [("query", .str "q"), ("research", .str "out"), ("summary", .str "out")],
        [⟨"anthropic:claude-sonnet-4-20250514", "Research the topic thoroughly.", "q"⟩,
         ⟨"anthropic:claude-sonnet-4-20250514", "Summarize in 2-3 sentences.", "Summarize: out"⟩])
    ∧ ("m" : String) ≠ "anthropic:claude-sonnet-4-20250514" :=
  ⟨rfl, rfl, by decide⟩

/-- C4 (amended): the one-shot entry point accepts a query and an optional
model identifier, which (or whose default "anthropic:claude-sonnet-4-20250514")
is the model passed to the agent constructor; the durable entry point accepts
only the query, and both of its steps pass the fixed identifier
"anthropic:claude-sonnet-4-20250514" to their agent constructors. -/
theorem C4_amended_inputs (f : AgentCall → AgentRunResult) (q m : String) :
    (∃ out, simple_agent.main (oracleOf (ε := Unit) f) q m [] =
      .ok (out, [helpfulCall m q]))
    ∧ simple_agent.main (oracleOf (ε := Unit) f) q
        = simple_agent.main (oracleOf f) q "anthropic:claude-sonnet-4-20250514"
    ∧ (∃ out, durable_workflow.main (oracleOf (ε := Unit) f) q [] =
      .ok (out, [researchCall q, summarizeCall (f (researchCall q)).data]))
    ∧ (helpfulCall m q).model = m
    ∧ (researchCall q).model = "anthropic:claude-sonnet-4-20250514"
    ∧ (summarizeCall (f (researchCall q)).data).model
        = "anthropic:claude-sonnet-4-20250514" :=
  ⟨⟨_, rfl⟩, rfl, ⟨_, rfl⟩, rfl, rfl, rfl⟩
